import Mathlib

/-!
Verification development for lale.lib.aif360.reweighing.

The source file defines one adapter class, ReweighingImpl, with methods fit
and predict, plus declarative JSON schema objects.  The fit method marshals
the input data into the table convention expected by the external aif360
Reweighing routine, extracts per-sample instance weights from its output,
and fits the downstream estimator with those weights.

External code that the adapter calls but that is not part of the excerpt
(the aif360 library, and the lale operator machinery such as
TrainablePipeline) is modelled abstractly, as operations supplied by an
environment record.  Repository helpers that live outside the excerpt
(ProtectedAttributesEncoder, the utilities in lale.lib.aif360.util) are
modelled from the specification, as stated in their doc comments.
-/

/-- Cell and label values of the data tables; the adapter never inspects
them except for membership tests against the favorable labels, so a single
concrete value type suffices. -/
abbrev Val := Int

/-- A feature table; rows are samples.  Models a pandas DataFrame or a 2-d
ndarray as a list of rows. -/
abbrev Table := List (List Val)

/-- Models X.shape[1], the number of columns, as the length of the first
row of the table. -/
def Table.shape1 (X : Table) : Nat := (X.headD []).length

/-- Instance weights, as produced by the reweighing routine.  The adapter
never computes with them, so rationals model the floating point values. -/
abbrev Weights := List Rat

/-- One privileged or unprivileged group: a mapping from protected feature
names to values, modelling a Python dict as an association list. -/
abbrev PAGroup := List (String × Val)

/-- One entry of the protected_attributes hyperparameter.  The adapter
reads only the feature key of each entry. -/
structure ProtectedAttribute where
  feature : String
deriving Repr, DecidableEq

/-- A pandas Series of labels: a value list together with its name. -/
structure Series where
  name : Nat
  vals : List Val
deriving Repr, DecidableEq

/-- Series.apply maps a function over the values, keeping the name. -/
def Series.apply (s : Series) (f : Val → Val) : Series :=
  { s with vals := s.vals.map f }

/-- The label argument of fit, which the source inspects with isinstance:
either a numpy ndarray or a pandas Series. -/
inductive YInput where
  | ndarray (data : List Val)
  | series (s : Series)
deriving Repr, DecidableEq

/-- Modelled from the spec: the helper _ndarray_to_series lives in
lale.lib.aif360.util, outside the excerpt.  It converts the label vector to
a series carrying the same values, named by the given column count. -/
def _ndarray_to_series (data : List Val) (name : Nat) : Series :=
  { name := name, vals := data }

/-- Modelled from the spec: the helper _group_flag lives in
lale.lib.aif360.util, outside the excerpt.  The spec describes the label
binarization as mapping a label to the favorable group flag 1 when it is
among the favorable labels and to the unfavorable flag 0 otherwise. -/
def _group_flag (v : Val) (favorable_labels : List Val) : Val :=
  if v ∈ favorable_labels then 1 else 0

/-- The aif360 structured dataset handed to the reweighing routine,
recording the construction parameters and the data. -/
structure Dataset where
  favorable_label : Val
  unfavorable_label : Val
  protected_attribute_names : List String
  features : Table
  labels : Series
  instance_weights : Weights
deriving Repr, DecidableEq

/-- Modelled from the spec: the helper _PandasToDatasetConverter lives in
lale.lib.aif360.util, outside the excerpt.  Per the spec it constructs the
dataset for the reweighing routine from the encoded table and labels,
tagged with the given favorable and unfavorable label values; the dataset
starts with unit instance weights. -/
structure _PandasToDatasetConverter where
  favorable_label : Val
  unfavorable_label : Val
  protected_attribute_names : List String

/-- Applying the converter, as in the source call pandas_to_dataset(X, y). -/
def _PandasToDatasetConverter.call (c : _PandasToDatasetConverter)
    (X : Table) (y : Series) : Dataset :=
  { favorable_label := c.favorable_label
    unfavorable_label := c.unfavorable_label
    protected_attribute_names := c.protected_attribute_names
    features := X
    labels := y
    instance_weights := List.replicate y.vals.length 1 }

/-- The encoder object constructed in fit; its transform semantics lives in
lale.lib.aif360.protected_attributes_encoder, outside the excerpt, and is
therefore an abstract environment operation. -/
structure ProtectedAttributesEncoder where
  protected_attributes : List ProtectedAttribute

/-- A trained aif360 Reweighing object: its transform maps a dataset to a
reweighted dataset. -/
structure ReweighingTrained where
  transform : Dataset → Dataset

/-- A trainable aif360 Reweighing object: fit on a dataset yields a
trained object. -/
structure ReweighingTrainable where
  fit : Dataset → ReweighingTrained

/-- The environment of external operations the adapter calls.  Op is the
abstract type of lale operators (trainable, trained, or pipelines); their
methods are supplied here because lale.operators is outside the excerpt,
as are the aif360 Reweighing constructor and the encoder transform. -/
structure Env (Op : Type) where
  protAttrTransform : ProtectedAttributesEncoder → Table → Table
  mkReweighing : List PAGroup → List PAGroup → ReweighingTrainable
  isTrainablePipeline : Op → Bool
  remove_last : Op → Op
  get_last : Op → Op
  fitOpW : Op → Table → YInput → Option Weights → Op
  transformOp : Op → Table → Table
  predictOp : Op → Table → List Val
  composePipe : Op → Op → Op

/-- The adapter object: the three fields set by the constructor. -/
structure ReweighingImpl (Op : Type) where
  estimator : Op
  favorable_labels : List Val
  protected_attributes : List ProtectedAttribute

/-- The fit method of ReweighingImpl, translated line by line from the
source.  External calls go through the environment; the final assignment to
self.estimator becomes a record update, and returning self becomes
returning the updated record. -/
def ReweighingImpl.fit {Op : Type} (env : Env Op)
    (self : ReweighingImpl Op) (X : Table) (y : YInput) : ReweighingImpl Op :=
  let prot_attr_enc : ProtectedAttributesEncoder := ⟨self.protected_attributes⟩
  let encoded_X := env.protAttrTransform prot_attr_enc X
  let encoded_y :=
    match y with
    | YInput.ndarray data => _ndarray_to_series data (Table.shape1 X)
    | YInput.series s => s
  let encoded_y := encoded_y.apply (fun v => _group_flag v self.favorable_labels)
  let pans := self.protected_attributes.map ProtectedAttribute.feature
  let pandas_to_dataset : _PandasToDatasetConverter := ⟨1, 0, pans⟩
  let encoded_data := pandas_to_dataset.call encoded_X encoded_y
  let unpriv_groups := [self.protected_attributes.map (fun pa => (pa.feature, (0 : Val)))]
  let priv_groups := [self.protected_attributes.map (fun pa => (pa.feature, (1 : Val)))]
  let reweighing_trainable := env.mkReweighing unpriv_groups priv_groups
  let reweighing_trained := reweighing_trainable.fit encoded_data
  let reweighted_data := reweighing_trained.transform encoded_data
  let sample_weight := reweighted_data.instance_weights
  let estimator :=
    if env.isTrainablePipeline self.estimator then
      let trainable_pre := env.remove_last self.estimator
      let trainable_suffix := env.get_last self.estimator
      let trained_pre := env.fitOpW trainable_pre X y none
      let transformed_X := env.transformOp trained_pre X
      let trained_suffix := env.fitOpW trainable_suffix transformed_X y (some sample_weight)
      env.composePipe trained_pre trained_suffix
    else
      env.fitOpW self.estimator X y (some sample_weight)
  { self with estimator := estimator }

/-- The predict method of ReweighingImpl: it reads self.estimator, calls
its predict, and returns the result.  The method mutates nothing, which
the state-passing embedding makes explicit by returning self unchanged. -/
def ReweighingImpl.predict {Op : Type} (env : Env Op)
    (self : ReweighingImpl Op) (X : Table) : List Val × ReweighingImpl Op :=
  let result := env.predictOp self.estimator X
  (result, self)

/-- The label series the source obtains from the y argument: an ndarray is
converted with _ndarray_to_series, a series is used as is. -/
def seriesOfY (y : YInput) (X : Table) : Series :=
  match y with
  | YInput.ndarray data => _ndarray_to_series data (Table.shape1 X)
  | YInput.series s => s

/-- The singleton list of unprivileged groups built in fit: one group
mapping each listed protected feature to 0. -/
def unprivGroupsOf (pas : List ProtectedAttribute) : List PAGroup :=
  [pas.map (fun pa => (pa.feature, (0 : Val)))]

/-- The singleton list of privileged groups built in fit: one group
mapping each listed protected feature to 1. -/
def privGroupsOf (pas : List ProtectedAttribute) : List PAGroup :=
  [pas.map (fun pa => (pa.feature, (1 : Val)))]

/-- The dataset fit hands to the reweighing routine: protected attributes
encoded, labels binarized, favorable label 1 and unfavorable label 0. -/
def encodedDataset {Op : Type} (env : Env Op) (self : ReweighingImpl Op)
    (X : Table) (y : YInput) : Dataset :=
  let encoded_X := env.protAttrTransform ⟨self.protected_attributes⟩ X
  let encoded_y := (seriesOfY y X).apply (fun v => _group_flag v self.favorable_labels)
  let pans := self.protected_attributes.map ProtectedAttribute.feature
  (⟨1, 0, pans⟩ : _PandasToDatasetConverter).call encoded_X encoded_y

/-- The sample weight vector fit derives: the instance weights of the
dataset returned by the reweighing transform. -/
def derivedSampleWeight {Op : Type} (env : Env Op) (self : ReweighingImpl Op)
    (X : Table) (y : YInput) : Weights :=
  let encoded_data := encodedDataset env self X y
  let reweighing_trainable :=
    env.mkReweighing (unprivGroupsOf self.protected_attributes)
      (privGroupsOf self.protected_attributes)
  ((reweighing_trainable.fit encoded_data).transform encoded_data).instance_weights

/-- Fitting the downstream estimator with the derived weights, as the spec
describes it: a pipeline has its last stage fit with the weights after the
fitted remainder transforms X, any other estimator is fit directly. -/
def fitDownstreamWithWeights {Op : Type} (env : Env Op) (estimator : Op)
    (X : Table) (y : YInput) (w : Weights) : Op :=
  if env.isTrainablePipeline estimator then
    let fitted_pre := env.fitOpW (env.remove_last estimator) X y none
    env.composePipe fitted_pre
      (env.fitOpW (env.get_last estimator) (env.transformOp fitted_pre X) y (some w))
  else
    env.fitOpW estimator X y (some w)

/-- Written from the spec sentence describing fit: encode the protected
attributes of X, binarize the labels y into favorable and unfavorable
groups, fit and then transform the encoded dataset with the external
reweighing routine, extract the per-sample instance weights, and fit the
downstream estimator, or the last stage of a pipeline, with those
weights. -/
def reweighingFitSpec {Op : Type} (env : Env Op) (self : ReweighingImpl Op)
    (X : Table) (y : YInput) : ReweighingImpl Op :=
  let encoded_X := env.protAttrTransform ⟨self.protected_attributes⟩ X
  let binarized_y := (seriesOfY y X).apply (fun v => _group_flag v self.favorable_labels)
  let dataset :=
    (⟨1, 0, self.protected_attributes.map ProtectedAttribute.feature⟩ :
      _PandasToDatasetConverter).call encoded_X binarized_y
  let reweighted :=
    ((env.mkReweighing (unprivGroupsOf self.protected_attributes)
        (privGroupsOf self.protected_attributes)).fit dataset).transform dataset
  let weights := reweighted.instance_weights
  { self with estimator := fitDownstreamWithWeights env self.estimator X y weights }

/-- The fit method threaded through an arbitrary module-level state
component: the body of fit reads and writes no module-level or global
name, so in the state-passing embedding the component passes through
untouched and the result cannot depend on it. -/
def fitWithModuleState {Op G : Type} (env : Env Op) (g : G)
    (self : ReweighingImpl Op) (X : Table) (y : YInput) : ReweighingImpl Op × G :=
  (ReweighingImpl.fit env self X y, g)

/-- The predict method threaded through an arbitrary module-level state
component, likewise untouched. -/
def predictWithModuleState {Op G : Type} (env : Env Op) (g : G)
    (self : ReweighingImpl Op) (X : Table) : (List Val × ReweighingImpl Op) × G :=
  (ReweighingImpl.predict env self X, g)

/-- A trained aif360 Reweighing object whose transform may raise. -/
structure ReweighingTrainedE (ε : Type) where
  transform : Dataset → Except ε Dataset

/-- A trainable aif360 Reweighing object whose fit may raise. -/
structure ReweighingTrainableE (ε : Type) where
  fit : Dataset → Except ε (ReweighingTrainedE ε)

/-- The environment of external operations when each call may raise an
exception of type ε.  The isinstance test cannot raise and stays pure. -/
structure EnvE (Op ε : Type) where
  protAttrTransform : ProtectedAttributesEncoder → Table → Except ε Table
  mkReweighing : List PAGroup → List PAGroup → Except ε (ReweighingTrainableE ε)
  isTrainablePipeline : Op → Bool
  remove_last : Op → Except ε Op
  get_last : Op → Except ε Op
  fitOpW : Op → Table → YInput → Option Weights → Except ε Op
  transformOp : Op → Table → Except ε Table
  predictOp : Op → Table → Except ε (List Val)
  composePipe : Op → Op → Except ε Op

/-- The fit method in the exception-passing embedding: the body performs no
raise of its own and installs no handler, so every external failure
propagates out unchanged. -/
def ReweighingImpl.fitE {Op ε : Type} (env : EnvE Op ε)
    (self : ReweighingImpl Op) (X : Table) (y : YInput) :
    Except ε (ReweighingImpl Op) := do
  let prot_attr_enc : ProtectedAttributesEncoder := ⟨self.protected_attributes⟩
  let encoded_X ← env.protAttrTransform prot_attr_enc X
  let encoded_y :=
    match y with
    | YInput.ndarray data => _ndarray_to_series data (Table.shape1 X)
    | YInput.series s => s
  let encoded_y := encoded_y.apply (fun v => _group_flag v self.favorable_labels)
  let pans := self.protected_attributes.map ProtectedAttribute.feature
  let pandas_to_dataset : _PandasToDatasetConverter := ⟨1, 0, pans⟩
  let encoded_data := pandas_to_dataset.call encoded_X encoded_y
  let unpriv_groups := [self.protected_attributes.map (fun pa => (pa.feature, (0 : Val)))]
  let priv_groups := [self.protected_attributes.map (fun pa => (pa.feature, (1 : Val)))]
  let reweighing_trainable ← env.mkReweighing unpriv_groups priv_groups
  let reweighing_trained ← reweighing_trainable.fit encoded_data
  let reweighted_data ← reweighing_trained.transform encoded_data
  let sample_weight := reweighted_data.instance_weights
  if env.isTrainablePipeline self.estimator then
    let trainable_pre ← env.remove_last self.estimator
    let trainable_suffix ← env.get_last self.estimator
    let trained_pre ← env.fitOpW trainable_pre X y none
    let transformed_X ← env.transformOp trained_pre X
    let trained_suffix ← env.fitOpW trainable_suffix transformed_X y (some sample_weight)
    let estimator ← env.composePipe trained_pre trained_suffix
    pure { self with estimator := estimator }
  else
    let estimator ← env.fitOpW self.estimator X y (some sample_weight)
    pure { self with estimator := estimator }

/-- The predict method in the exception-passing embedding. -/
def ReweighingImpl.predictE {Op ε : Type} (env : EnvE Op ε)
    (self : ReweighingImpl Op) (X : Table) :
    Except ε (List Val × ReweighingImpl Op) := do
  let result ← env.predictOp self.estimator X
  pure (result, self)

/-- An environment none of whose operations raises, obtained by wrapping a
pure environment in Except.ok. -/
def liftEnvE {Op ε : Type} (env : Env Op) : EnvE Op ε where
  protAttrTransform := fun enc X => Except.ok (env.protAttrTransform enc X)
  mkReweighing := fun u p =>
    Except.ok ⟨fun d => Except.ok ⟨fun d2 => Except.ok (((env.mkReweighing u p).fit d).transform d2)⟩⟩
  isTrainablePipeline := env.isTrainablePipeline
  remove_last := fun o => Except.ok (env.remove_last o)
  get_last := fun o => Except.ok (env.get_last o)
  fitOpW := fun o X y w => Except.ok (env.fitOpW o X y w)
  transformOp := fun o X => Except.ok (env.transformOp o X)
  predictOp := fun o X => Except.ok (env.predictOp o X)
  composePipe := fun p s => Except.ok (env.composePipe p s)

/-- JSON values, for transcribing the schema dictionaries of the source. -/
inductive Json where
  | str (s : String)
  | num (n : Int)
  | bool (b : Bool)
  | arr (xs : List Json)
  | obj (fields : List (String × Json))

/-- Dictionary access on a JSON object. -/
def Json.lookup : Json → String → Option Json
  | Json.obj fields, k => (fields.find? (fun p => p.fst == k)).map Prod.snd
  | _, _ => none

/-- The keys of a JSON object, in order. -/
def Json.keys : Json → List String
  | Json.obj fields => fields.map Prod.fst
  | _ => []

/-- The declared schema for the X argument of fit and predict. -/
def _X_property_schema : Json := Json.obj
  [ ("description", Json.str "Features; the outer array is over samples."),
    ("type", Json.str "array"),
    ("items", Json.obj
      [ ("type", Json.str "array"),
        ("items", Json.obj
          [ ("anyOf", Json.arr
              [ Json.obj [("type", Json.str "number")],
                Json.obj [("type", Json.str "string")] ]) ]) ]) ]

/-- The declared anyOf schema for label and prediction vectors: an array
of numbers, of strings, or of booleans. -/
def _label_vector_anyOf : List Json :=
  [ Json.obj [("type", Json.str "array"), ("items", Json.obj [("type", Json.str "number")])],
    Json.obj [("type", Json.str "array"), ("items", Json.obj [("type", Json.str "string")])],
    Json.obj [("type", Json.str "array"), ("items", Json.obj [("type", Json.str "boolean")])] ]

/-- The _input_fit_schema dictionary of the source. -/
def _input_fit_schema : Json := Json.obj
  [ ("description", Json.str "Input data schema for training."),
    ("type", Json.str "object"),
    ("required", Json.arr [Json.str "X", Json.str "y"]),
    ("additionalProperties", Json.bool false),
    ("properties", Json.obj
      [ ("X", _X_property_schema),
        ("y", Json.obj
          [ ("description", Json.str "The predicted classes."),
            ("anyOf", Json.arr _label_vector_anyOf) ]) ]) ]

/-- The _input_predict_schema dictionary of the source. -/
def _input_predict_schema : Json := Json.obj
  [ ("description", Json.str "Input data schema for transform."),
    ("type", Json.str "object"),
    ("required", Json.arr [Json.str "X"]),
    ("additionalProperties", Json.bool false),
    ("properties", Json.obj [("X", _X_property_schema)]) ]

/-- The _output_predict_schema dictionary of the source. -/
def _output_predict_schema : Json := Json.obj
  [ ("description", Json.str "The predicted classes."),
    ("anyOf", Json.arr _label_vector_anyOf) ]

/-- Modelled from the spec: _categorical_fairness_properties comes from
lale.lib.aif360.util, outside the excerpt; only the fact that it supplies
schema objects for the favorable_labels and protected_attributes keys is
used here, so their contents are left as empty placeholders. -/
def _categorical_fairness_properties : String → Json :=
  fun _ => Json.obj []

/-- The single element of the allOf list in _hyperparams_schema. -/
def _hyperparams_allOf_entry : Json := Json.obj
  [ ("type", Json.str "object"),
    ("additionalProperties", Json.bool false),
    ("required", Json.arr
      [Json.str "estimator", Json.str "favorable_labels", Json.str "protected_attributes"]),
    ("relevantToOptimizer", Json.arr []),
    ("properties", Json.obj
      [ ("estimator", Json.obj
          [ ("description",
              Json.str "Nested classifier, fit method must support sample_weight."),
            ("laleType", Json.str "operator") ]),
        ("favorable_labels", _categorical_fairness_properties "favorable_labels"),
        ("protected_attributes", _categorical_fairness_properties "protected_attributes") ]) ]

/-- The _hyperparams_schema dictionary of the source. -/
def _hyperparams_schema : Json := Json.obj
  [ ("description", Json.str "Hyperparameter schema."),
    ("allOf", Json.arr [_hyperparams_allOf_entry]) ]

/-- The _combined_schemas dictionary of the source, with its docstring text
abbreviated to its first line. -/
def _combined_schemas : Json := Json.obj
  [ ("description", Json.str "Reweighing preprocessor for fairness mitigation."),
    ("documentation_url",
      Json.str "https://lale.readthedocs.io/en/latest/modules/lale.lib.aif360.reweighing.html"),
    ("import_from", Json.str "aif360.sklearn.preprocessing"),
    ("type", Json.str "object"),
    ("tags", Json.obj
      [ ("pre", Json.arr []),
        ("op", Json.arr [Json.str "estimator", Json.str "classifier"]),
        ("post", Json.arr []) ]),
    ("properties", Json.obj
      [ ("hyperparams", _hyperparams_schema),
        ("input_fit", _input_fit_schema),
        ("input_predict", _input_predict_schema),
        ("output_predict", _output_predict_schema) ]) ]

/-- A protected attribute entry for concrete evaluations. -/
def pa0 : ProtectedAttribute := ⟨"gender"⟩

/-- An adapter whose estimator, the operator 0, is not a pipeline under env0. -/
def impl0 : ReweighingImpl Nat :=
  { estimator := 0, favorable_labels := [1], protected_attributes := [pa0] }

/-- An adapter whose estimator, the operator 1, is a pipeline under env0. -/
def impl1 : ReweighingImpl Nat :=
  { estimator := 1, favorable_labels := [1], protected_attributes := [pa0] }

/-- A concrete environment over operators numbered by Nat, for evaluating
the theorems on closed inputs. -/
def env0 : Env Nat where
  protAttrTransform := fun _ X => X
  mkReweighing := fun _ _ => ⟨fun _ => ⟨fun d => { d with instance_weights := [2] }⟩⟩
  isTrainablePipeline := fun o => o == 1
  remove_last := fun _ => 10
  get_last := fun _ => 11
  fitOpW := fun o _ _ w => o + 100 + (match w with | none => 0 | some ws => ws.length)
  transformOp := fun _ X => X
  predictOp := fun o _ => [(o : Int)]
  composePipe := fun p s => p * 1000 + s

/-- A concrete table and label vector. -/
def X0 : Table := [[5], [7]]

/-- A concrete ndarray label argument. -/
def y0 : YInput := YInput.ndarray [1, 0]

/-- A concrete failing environment: the encoder transform and the
estimator predict raise, everything else succeeds. -/
def envFailE : EnvE Nat String where
  protAttrTransform := fun _ _ => Except.error "encoder-raised"
  mkReweighing := fun _ _ => Except.ok ⟨fun _ => Except.ok ⟨fun d => Except.ok d⟩⟩
  isTrainablePipeline := fun _ => false
  remove_last := fun o => Except.ok o
  get_last := fun o => Except.ok o
  fitOpW := fun o _ _ _ => Except.ok o
  transformOp := fun _ X => Except.ok X
  predictOp := fun _ _ => Except.error "estimator-raised"
  composePipe := fun p s => Except.ok (p * 1000 + s)

/-- Helper: when the estimator is not a pipeline, fit refits it directly
with the derived sample weights. -/
theorem fit_estimator_of_not_pipeline {Op : Type} (env : Env Op)
    (self : ReweighingImpl Op) (X : Table) (y : YInput)
    (h : env.isTrainablePipeline self.estimator = false) :
    (ReweighingImpl.fit env self X y).estimator =
      env.fitOpW self.estimator X y (some (derivedSampleWeight env self X y)) := by
  simp only [ReweighingImpl.fit]
  rw [h]
  rfl

/-- Helper: when the estimator is a pipeline, fit refits the remainder
without weights, transforms X with it, refits the last stage with the
derived weights, and composes the two trained parts. -/
theorem fit_estimator_of_pipeline {Op : Type} (env : Env Op)
    (self : ReweighingImpl Op) (X : Table) (y : YInput)
    (h : env.isTrainablePipeline self.estimator = true) :
    (ReweighingImpl.fit env self X y).estimator =
      let trained_pre := env.fitOpW (env.remove_last self.estimator) X y none
      let transformed_X := env.transformOp trained_pre X
      let trained_suffix := env.fitOpW (env.get_last self.estimator) transformed_X y
        (some (derivedSampleWeight env self X y))
      env.composePipe trained_pre trained_suffix := by
  simp only [ReweighingImpl.fit]
  rw [h]
  rfl

/-- C1: every call to ReweighingImpl.fit follows exactly the linear
procedure of the spec, in order: encode the protected attributes of X with
ProtectedAttributesEncoder, binarize the labels y into favorable and
unfavorable groups, fit and then transform the encoded dataset with the
external aif360 Reweighing routine, extract the per-sample instance
weights from the transformed dataset, and fit the downstream estimator, or
the last stage of a pipeline, with those weights. -/
theorem fit_follows_spec_procedure {Op : Type} (env : Env Op)
    (self : ReweighingImpl Op) (X : Table) (y : YInput) :
    ReweighingImpl.fit env self X y = reweighingFitSpec env self X y := by
  cases y <;> rfl

/-- C2: the sample weight vector handed to the fit call of the downstream
estimator is exactly the instance_weights attribute of the dataset
returned by the reweighing transform, unmodified, in both the plain and
the pipeline branch. -/
theorem fit_passes_instance_weights_unmodified {Op : Type} (env : Env Op)
    (self : ReweighingImpl Op) (X : Table) (y : YInput) :
    derivedSampleWeight env self X y =
      (((env.mkReweighing (unprivGroupsOf self.protected_attributes)
            (privGroupsOf self.protected_attributes)).fit
          (encodedDataset env self X y)).transform
        (encodedDataset env self X y)).instance_weights ∧
    (env.isTrainablePipeline self.estimator = false →
      (ReweighingImpl.fit env self X y).estimator =
        env.fitOpW self.estimator X y (some (derivedSampleWeight env self X y))) ∧
    (env.isTrainablePipeline self.estimator = true →
      (ReweighingImpl.fit env self X y).estimator =
        env.composePipe (env.fitOpW (env.remove_last self.estimator) X y none)
          (env.fitOpW (env.get_last self.estimator)
            (env.transformOp (env.fitOpW (env.remove_last self.estimator) X y none) X)
            y (some (derivedSampleWeight env self X y)))) :=
  ⟨rfl, fun h => fit_estimator_of_not_pipeline env self X y h,
   fun h => fit_estimator_of_pipeline env self X y h⟩

/-- C2 witness: on concrete inputs the non-pipeline estimator 0 is refit
to the operator 101, its derived weight list of length one included. -/
theorem fit_passes_instance_weights_unmodified_witness :
    (ReweighingImpl.fit env0 impl0 X0 y0).estimator = 101 :=
  Eq.trans ((fit_passes_instance_weights_unmodified env0 impl0 X0 y0).2.1 rfl) rfl

/-- C3: when the estimator is a lale TrainablePipeline, fit trains the
remainder of the pipeline on X and y without sample weights, transforms X
with the trained remainder, fits the last stage on the transformed X and y
with the derived instance weights, and stores the composition of the two
trained parts. -/
theorem fit_pipeline_fits_last_stage {Op : Type} (env : Env Op)
    (self : ReweighingImpl Op) (X : Table) (y : YInput)
    (h : env.isTrainablePipeline self.estimator = true) :
    (ReweighingImpl.fit env self X y).estimator =
      let trained_pre := env.fitOpW (env.remove_last self.estimator) X y none
      let transformed_X := env.transformOp trained_pre X
      let trained_suffix := env.fitOpW (env.get_last self.estimator) transformed_X y
        (some (derivedSampleWeight env self X y))
      env.composePipe trained_pre trained_suffix :=
  fit_estimator_of_pipeline env self X y h

/-- C3 witness: on concrete inputs the pipeline estimator 1 is replaced by
the composition 110112 of trained remainder 110 and trained last stage
112. -/
theorem fit_pipeline_fits_last_stage_witness :
    (ReweighingImpl.fit env0 impl1 X0 y0).estimator = 110112 :=
  Eq.trans (fit_pipeline_fits_last_stage env0 impl1 X0 y0 rfl) rfl

/-- C4: each label value in y is binarized to 1 when it belongs to the
favorable_labels hyperparameter and to 0 otherwise, and the dataset handed
to the reweighing routine carries favorable_label 1 and unfavorable_label
0; the estimator stored by fit is trained with the weights derived from
that dataset. -/
theorem fit_binarizes_labels {Op : Type} (env : Env Op)
    (self : ReweighingImpl Op) (X : Table) (y : YInput) :
    (encodedDataset env self X y).favorable_label = 1 ∧
    (encodedDataset env self X y).unfavorable_label = 0 ∧
    (encodedDataset env self X y).labels.vals =
      (seriesOfY y X).vals.map
        (fun v => if v ∈ self.favorable_labels then (1 : Val) else 0) ∧
    derivedSampleWeight env self X y =
      (((env.mkReweighing (unprivGroupsOf self.protected_attributes)
            (privGroupsOf self.protected_attributes)).fit
          (encodedDataset env self X y)).transform
        (encodedDataset env self X y)).instance_weights ∧
    (ReweighingImpl.fit env self X y).estimator =
      fitDownstreamWithWeights env self.estimator X y (derivedSampleWeight env self X y) := by
  refine ⟨rfl, rfl, rfl, rfl, ?_⟩
  cases y <;> rfl

/-- C5: the declared schema objects form the JSON schema contract of the
operator: the hyperparameter schema requires exactly estimator,
favorable_labels and protected_attributes and forbids additional
properties, the fit input schema requires X and y, the predict input
schema requires X, and the predict output schema allows an array of
numbers, of strings, or of booleans. -/
theorem declared_schemas_contract :
    _hyperparams_schema.lookup "allOf" = some (Json.arr [_hyperparams_allOf_entry]) ∧
    _hyperparams_allOf_entry.lookup "required" =
      some (Json.arr
        [Json.str "estimator", Json.str "favorable_labels", Json.str "protected_attributes"]) ∧
    _hyperparams_allOf_entry.lookup "additionalProperties" = some (Json.bool false) ∧
    (_hyperparams_allOf_entry.lookup "properties").map Json.keys =
      some ["estimator", "favorable_labels", "protected_attributes"] ∧
    _input_fit_schema.lookup "required" = some (Json.arr [Json.str "X", Json.str "y"]) ∧
    _input_predict_schema.lookup "required" = some (Json.arr [Json.str "X"]) ∧
    _output_predict_schema.lookup "anyOf" =
      some (Json.arr
        [ Json.obj [("type", Json.str "array"), ("items", Json.obj [("type", Json.str "number")])],
          Json.obj [("type", Json.str "array"), ("items", Json.obj [("type", Json.str "string")])],
          Json.obj [("type", Json.str "array"), ("items", Json.obj [("type", Json.str "boolean")])] ]) ∧
    (_combined_schemas.lookup "properties").map Json.keys =
      some ["hyperparams", "input_fit", "input_predict", "output_predict"] :=
  ⟨rfl, rfl, rfl, rfl, rfl, rfl, rfl, rfl⟩

/-- C6: neither fit nor predict touches any state other than the instance
fields of the adapter: in the state-passing embedding over an arbitrary
module-level state component, both methods return the component unchanged
and their results do not depend on it, and predict returns the adapter
unchanged. -/
theorem fit_predict_no_global_state {Op G : Type} (env : Env Op) (g g2 : G)
    (self : ReweighingImpl Op) (X : Table) (y : YInput) :
    fitWithModuleState env g self X y = (ReweighingImpl.fit env self X y, g) ∧
    (fitWithModuleState env g self X y).1 = (fitWithModuleState env g2 self X y).1 ∧
    predictWithModuleState env g self X = (ReweighingImpl.predict env self X, g) ∧
    (predictWithModuleState env g self X).1 = (predictWithModuleState env g2 self X).1 ∧
    (ReweighingImpl.predict env self X).2 = self :=
  ⟨rfl, rfl, rfl, rfl, rfl⟩

/-- Helper: lifting a pure environment keeps the isinstance test. -/
theorem liftEnvE_isTrainablePipeline {Op ε : Type} (env : Env Op) :
    (liftEnvE env : EnvE Op ε).isTrainablePipeline = env.isTrainablePipeline :=
  rfl

/-- C7: fit and predict raise nothing of their own and handle nothing: in
the exception-passing embedding, a non-failing environment makes both
methods succeed with the pure result, and a failure of an external call
propagates out unchanged, shown here for the first external call of each
method. -/
theorem errors_from_externals_propagate {Op ε : Type} (env : Env Op)
    (envE : EnvE Op ε) (self : ReweighingImpl Op) (X : Table) (y : YInput) (e : ε) :
    ReweighingImpl.fitE (liftEnvE env : EnvE Op ε) self X y =
      Except.ok (ReweighingImpl.fit env self X y) ∧
    ReweighingImpl.predictE (liftEnvE env : EnvE Op ε) self X =
      Except.ok (ReweighingImpl.predict env self X) ∧
    (envE.protAttrTransform ⟨self.protected_attributes⟩ X = Except.error e →
      ReweighingImpl.fitE envE self X y = Except.error e) ∧
    (envE.predictOp self.estimator X = Except.error e →
      ReweighingImpl.predictE envE self X = Except.error e) := by
  refine ⟨?_, rfl, fun h => ?_, fun h => ?_⟩
  · rcases Bool.eq_false_or_eq_true (env.isTrainablePipeline self.estimator) with hb | hb <;>
    · simp only [ReweighingImpl.fitE, ReweighingImpl.fit, liftEnvE_isTrainablePipeline, hb]
      rfl
  · simp only [ReweighingImpl.fitE]
    rw [h]
    rfl
  · simp only [ReweighingImpl.predictE]
    rw [h]
    rfl

/-- C7 witness: under the concrete failing environment, fit surfaces the
encoder error and predict surfaces the estimator error, both unchanged. -/
theorem errors_from_externals_propagate_witness :
    ReweighingImpl.fitE envFailE impl0 X0 y0 = Except.error "encoder-raised" ∧
    ReweighingImpl.predictE envFailE impl0 X0 = Except.error "estimator-raised" :=
  ⟨(errors_from_externals_propagate env0 envFailE impl0 X0 y0 "encoder-raised").2.2.1 rfl,
   (errors_from_externals_propagate env0 envFailE impl0 X0 y0 "estimator-raised").2.2.2 rfl⟩

/-- C8: fit invokes the external Reweighing routine with exactly one
unprivileged group mapping every listed protected feature to 0 and exactly
one privileged group mapping every listed protected feature to 1: the two
group lists are singletons with those entries, and replacing the routine
by any function agreeing on exactly those two arguments leaves fit
unchanged. -/
theorem fit_reweighing_groups {Op : Type} (env : Env Op)
    (r : List PAGroup → List PAGroup → ReweighingTrainable)
    (self : ReweighingImpl Op) (X : Table) (y : YInput)
    (hr : r (unprivGroupsOf self.protected_attributes) (privGroupsOf self.protected_attributes)
        = env.mkReweighing (unprivGroupsOf self.protected_attributes)
            (privGroupsOf self.protected_attributes)) :
    (unprivGroupsOf self.protected_attributes).length = 1 ∧
    (privGroupsOf self.protected_attributes).length = 1 ∧
    (∀ g ∈ unprivGroupsOf self.protected_attributes,
      ∀ pa ∈ self.protected_attributes, (pa.feature, (0 : Val)) ∈ g) ∧
    (∀ g ∈ privGroupsOf self.protected_attributes,
      ∀ pa ∈ self.protected_attributes, (pa.feature, (1 : Val)) ∈ g) ∧
    ReweighingImpl.fit { env with mkReweighing := r } self X y =
      ReweighingImpl.fit env self X y := by
  refine ⟨rfl, rfl, ?_, ?_, ?_⟩
  · intro g hg pa hpa
    simp only [unprivGroupsOf, List.mem_singleton] at hg
    subst hg
    exact List.mem_map_of_mem _ hpa
  · intro g hg pa hpa
    simp only [privGroupsOf, List.mem_singleton] at hg
    subst hg
    exact List.mem_map_of_mem _ hpa
  · simp only [unprivGroupsOf, privGroupsOf] at hr
    simp only [ReweighingImpl.fit]
    rw [hr]

/-- C8 witness: on the concrete adapter the group lists are singletons and
replacing the routine by itself leaves fit unchanged. -/
theorem fit_reweighing_groups_witness :
    (unprivGroupsOf impl0.protected_attributes).length = 1 ∧
    (privGroupsOf impl0.protected_attributes).length = 1 :=
  ⟨(fit_reweighing_groups env0 env0.mkReweighing impl0 X0 y0 rfl).1,
   (fit_reweighing_groups env0 env0.mkReweighing impl0 X0 y0 rfl).2.1⟩

/-- C9: fit returns the adapter with only the estimator field overwritten,
favorable_labels and protected_attributes unchanged, so a second fit
trains the already trained estimator stored by the first call, not the
originally configured one. -/
theorem fit_overwrites_only_estimator {Op : Type} (env : Env Op)
    (self : ReweighingImpl Op) (X X2 : Table) (y y2 : YInput)
    (h : env.isTrainablePipeline (ReweighingImpl.fit env self X y).estimator = false) :
    (ReweighingImpl.fit env self X y).favorable_labels = self.favorable_labels ∧
    (ReweighingImpl.fit env self X y).protected_attributes = self.protected_attributes ∧
    (ReweighingImpl.fit env (ReweighingImpl.fit env self X y) X2 y2).estimator =
      env.fitOpW (ReweighingImpl.fit env self X y).estimator X2 y2
        (some (derivedSampleWeight env (ReweighingImpl.fit env self X y) X2 y2)) :=
  ⟨rfl, rfl, fit_estimator_of_not_pipeline env (ReweighingImpl.fit env self X y) X2 y2 h⟩

/-- C9 witness: on concrete inputs the refit adapter keeps its favorable
labels, and a second fit trains the stored trained estimator 101 into
202. -/
theorem fit_overwrites_only_estimator_witness :
    (ReweighingImpl.fit env0 impl0 X0 y0).favorable_labels = [1] ∧
    (ReweighingImpl.fit env0 (ReweighingImpl.fit env0 impl0 X0 y0) X0 y0).estimator = 202 :=
  ⟨Eq.trans (fit_overwrites_only_estimator env0 impl0 X0 X0 y0 y0 rfl).1 rfl,
   Eq.trans (fit_overwrites_only_estimator env0 impl0 X0 X0 y0 y0 rfl).2.2 rfl⟩

/-- C10: predict returns exactly the prediction of the stored estimator on
X and leaves every instance field of the adapter unchanged. -/
theorem predict_delegates_to_estimator {Op : Type} (env : Env Op)
    (self : ReweighingImpl Op) (X : Table) :
    ReweighingImpl.predict env self X = (env.predictOp self.estimator X, self) :=
  rfl
